import Mathlib

/-!
Shallow embedding of `ssb_project_cli` (files `build/build.py`, `clean/clean.py`,
`app.py`) and proofs about its kernel-launch patcher and clean command.

Strings are modelled with Lean `String`; Python `dict`s are association lists
with Python insertion-order update semantics; the filesystem and subprocess
environment are explicit record parameters; `exit(n)` is an `Option Nat`
result component; subprocess launches, prints and error-log writes are an
ordered event trace.
-/

namespace SsbProject

/-! ## String helpers mirroring Python primitives -/

/-- Characters stripped by Python `str.strip()` / split on by `str.split()`. -/
def isPySpace (c : Char) : Bool :=
  c = ' ' || c = '\t' || c = '\n' || c = '\r' || c = '\x0b' || c = '\x0c'

/-- Split a character list at every character satisfying `p`, keeping empty
segments (the semantics of Python `str.split(sep)` for a one-character `sep`). -/
def splitOnPred (p : Char → Bool) : List Char → List Char → List (List Char)
  | [], acc => [acc.reverse]
  | x :: xs, acc =>
    if p x then acc.reverse :: splitOnPred p xs [] else splitOnPred p xs (x :: acc)

/-- Python `s.split("\n")`. -/
def splitOnNl (s : String) : List String :=
  (splitOnPred (fun c => c = '\n') s.toList []).map String.mk

/-- Python `s.split(" ")`. -/
def splitOnSpace (s : String) : List String :=
  (splitOnPred (fun c => c = ' ') s.toList []).map String.mk

/-- Python `s.split()`: split on whitespace runs, dropping empty segments. -/
def pySplitWs (s : String) : List String :=
  ((splitOnPred isPySpace s.toList []).filter (fun l => l ≠ [])).map String.mk

/-- Python `s.strip()`. -/
def pyStrip (s : String) : String :=
  String.mk (((s.toList.dropWhile isPySpace).reverse.dropWhile isPySpace).reverse)

/-- Does the character list contain a newline? -/
def containsNl : List Char → Bool
  | [] => false
  | c :: cs => c = '\n' || containsNl cs

/-- Python `s.endswith(suf)` (also used to embed regex suffix alternatives). -/
def endsWithL (s suf : String) : Bool :=
  s.toList.reverse.take suf.toList.length == suf.toList.reverse

/-! ## Association lists with Python dict semantics -/

/-- Lookup in an association list (first binding wins; `setA` keeps keys unique). -/
def lookupA {α : Type} : List (String × α) → String → Option α
  | [], _ => none
  | (k', v) :: rest, k => if k' = k then some v else lookupA rest k

/-- Python `d[k] = v`: update the existing binding in place, else append. -/
def setA {α : Type} : List (String × α) → String → α → List (String × α)
  | [], k, v => [(k, v)]
  | (k', v') :: rest, k, v =>
    if k' = k then (k, v) :: rest else (k', v') :: setA rest k v

/-! ## Minimal JSON documents (for `kernel.json`) -/

/-- JSON values as parsed by `json.loads`, restricted to what `kernel.json` holds. -/
inductive Json where
  | null : Json
  | bool : Bool → Json
  | num : Int → Json
  | str : String → Json
  | arr : List Json → Json
  | obj : List (String × Json) → Json

/-- Coerce a JSON value to a string (argv entries are strings in valid files). -/
def Json.asString : Json → String
  | .str s => s
  | _ => ""

/-- Python `content_as_json["argv"]`, read as a list of strings. -/
def Json.getArgv : Json → List String
  | .obj fs =>
    match lookupA fs "argv" with
    | some (.arr xs) => xs.map Json.asString
    | _ => []
  | _ => []

/-- Python `content_as_json["argv"] = v` for a list of strings `v`. -/
def Json.setArgv (j : Json) (v : List String) : Json :=
  match j with
  | .obj fs => .obj (setA fs "argv" (.arr (v.map Json.str)))
  | j => j

/-- Top-level field access on a JSON object. -/
def Json.field (j : Json) (k : String) : Option Json :=
  match j with
  | .obj fs => lookupA fs k
  | _ => none

/-! ## World state for `ipykernel_attach_bashrc` (build.py lines 96-184) -/

/-- Filesystem and kernel-registry state visible to the patcher. -/
structure World where
  /-- Result of `get_kernels_dict()`: kernel name to kernel directory. -/
  kernels : List (String × String)
  /-- Paths for which `Path(p).exists()` holds (kernel directories). -/
  paths : List String
  /-- JSON files (path to parsed document); existence is a successful lookup. -/
  jsonFiles : List (String × Json)
  /-- Plain text files (path to content), e.g. generated start scripts. -/
  textFiles : List (String × String)
  /-- Permission modes set by `os.chmod` (path to numeric mode). -/
  modes : List (String × Nat)

/-- Outcome of a call to `ipykernel_attach_bashrc`: `exit = some n` when the
function called `exit(n)`, `none` when it returned normally (the CLI run then
completes with exit code 0). -/
structure PatchOut where
  exit : Option Nat
  world : World
  prints : List String

/-- Process exit code resulting from the call (normal return completes with 0). -/
def PatchOut.code (o : PatchOut) : Nat := o.exit.getD 0

/-- Embeds `re.match(r"^.*(?:/python3|/python|/python\.sh)$", s)` restricted to
a body with no newline (Python `.` does not match `\n`). -/
def pyRegexCore (s : String) : Bool :=
  !containsNl s.toList &&
    (endsWithL s "/python3" || endsWithL s "/python" || endsWithL s "/python.sh")

/-- Full `re.match` semantics for the interpreter pattern: Python `$` also
matches just before a single trailing newline. -/
def pyRegexMatch (s : String) : Bool :=
  pyRegexCore s || (endsWithL s "\n" && pyRegexCore (String.mk s.toList.dropLast))

/-- build.py lines 157-167: first argv entry matching the interpreter pattern. -/
def get_python_executable_path (argv : List String) : Option String :=
  match argv.filter pyRegexMatch with
  | [] => none
  | m :: _ => some m

/-- build.py lines 170-184: the exact lines passed to `f.writelines`. -/
def start_script_lines (python_executable_path : String) : List String :=
  ["#!/usr/bin/env bash\n",
   "source $HOME/.bashrc\n",
   "exec " ++ python_executable_path ++ " $@"]

/-- Content of the generated start script (`writelines` concatenates). -/
def start_script_content (python_executable_path : String) : String :=
  String.join (start_script_lines python_executable_path)

/-- build.py lines 96-154: `ipykernel_attach_bashrc(project_name)` acting on a
world; every `exit` happens before any write, writes update `kernel.json`,
create the start script and chmod it to `0o555`. -/
def ipykernel_attach_bashrc (project_name : String) (w : World) : PatchOut :=
  match lookupA w.kernels project_name with
  | none =>
    ⟨some 1, w, [":x:\tCould not mount .bashrc, \x27" ++ project_name ++
      "\x27 is not found in \x27jupyter kernelspec list\x27."]⟩
  | some project_kernel_path =>
    if w.paths.contains project_kernel_path = false then
      ⟨some 1, w, [":x:\tCould not mount .bashrc, path: \x27" ++
        project_kernel_path ++ "\x27 does not exist."]⟩
    else
      match lookupA w.jsonFiles (project_kernel_path ++ "/kernel.json") with
      | none =>
        ⟨some 1, w, [":x:\tCould not mount .bashrc, file: \x27" ++
          (project_kernel_path ++ "/kernel.json") ++ "\x27 does not exist."]⟩
      | some content_as_json =>
        match get_python_executable_path content_as_json.getArgv with
        | none =>
          ⟨some 1, w, [":x:\tCould not mount .bashrc, cannot find python executable path in " ++
            (project_kernel_path ++ "/kernel.json")]⟩
        | some python_executable_path =>
          if endsWithL python_executable_path "/python.sh" then
            ⟨some 0, w, [":warning:\t.bashrc should already been mounted in your kernel, if you are in doubt do a \x27clean\x27 followed by a \x27build\x27"]⟩
          else
            ⟨none,
             { w with
               jsonFiles := setA w.jsonFiles (project_kernel_path ++ "/kernel.json")
                 (content_as_json.setArgv
                   [project_kernel_path ++ "/python.sh", "-m", "ipykernel_launcher",
                    "-f", "{connection_file}"]),
               textFiles := setA w.textFiles (project_kernel_path ++ "/python.sh")
                 (start_script_content python_executable_path),
               modes := setA w.modes (project_kernel_path ++ "/python.sh") 0o555 },
             []⟩

/-! ## Clean command model (clean.py) -/

/-- One observable action of the clean command, in execution order. -/
inductive Ev where
  /-- `subprocess.run(cmd, shell=True)` with the given command string. -/
  | sh : String → Ev
  /-- `subprocess.run(args)` with an argv list. -/
  | proc : List String → Ev
  /-- `print(msg)`. -/
  | print : String → Ev
  /-- `create_error_log(log, calling_function)`, recorded by calling function. -/
  | log : String → Ev
deriving DecidableEq

/-- Interactive answers and subprocess outcomes for one run of `clean`. -/
structure CleanEnv where
  /-- Answer to "Do you also wish to delete the virtual environment ...?". -/
  venvConfirm : Bool
  /-- `Path(".venv").is_dir()`. -/
  venvDirHere : Bool
  /-- Answer to the `questionary.path` prompt. -/
  venvPathAnswer : String
  /-- `Path(f"{path}/.venv").is_dir()` for the answered path. -/
  venvDirAtPath : Bool
  /-- stderr produced by the `rm -rf` run (empty bytes means success). -/
  rmStderr : String
  /-- Return code of `jupyter kernelspec list`. -/
  listRc : Int
  /-- stdout of `jupyter kernelspec list`. -/
  listStdout : String
  /-- Answer to "Are you sure you want to delete the kernel ...?". -/
  kernelConfirm : Bool
  /-- Return code of `jupyter kernelspec remove -f <name>`. -/
  removeRc : Int
  /-- stderr of `jupyter kernelspec remove -f <name>`. -/
  removeStderr : String

/-- clean.py lines 61-82, the parsing part of `get_kernels_dict`: skip the
header line, normalise whitespace, keep lines with exactly two fields. -/
def parseKernels (kernels_str : String) : List (String × String) :=
  ((splitOnNl kernels_str).drop 1).foldl
    (fun kernel_dict kernel =>
      let line := String.intercalate " " (pySplitWs (pyStrip kernel))
      if (splitOnSpace line).length = 2 then
        setA kernel_dict ((splitOnSpace line).getD 0 "") ((splitOnSpace line).getD 1 "")
      else kernel_dict)
    []

/-- clean.py lines 61-82: run `jupyter kernelspec list` and parse its output;
exits 1 when the subprocess fails. -/
def get_kernels_dict (e : CleanEnv) : List Ev × Except Nat (List (String × String)) :=
  if e.listRc = 0 then
    ([Ev.proc ["jupyter", "kernelspec", "list"]], .ok (parseKernels e.listStdout))
  else
    ([Ev.proc ["jupyter", "kernelspec", "list"],
      Ev.print "An error occured while looking for installed kernels."], .error 1)

/-- clean.py lines 85-139: `clean_venv()`; returns the trace and `some n` when
the function called `exit(n)`. -/
def clean_venv (e : CleanEnv) : List Ev × Option Nat :=
  if e.venvConfirm then
    if e.venvDirHere then
      if e.rmStderr ≠ "" then
        ([Ev.sh "rm -rf .venv",
          Ev.print "Something went wrong while removing virtual environment in current directory. A log of the issue was created...",
          Ev.log "clean-virtualenv"], some 1)
      else
        ([Ev.sh "rm -rf .venv",
          Ev.print "Virtual environment successfully removed."], none)
    else
      if e.venvDirAtPath then
        if e.rmStderr ≠ "" then
          ([Ev.print "No virtual environment found in current directory...",
            Ev.sh ("rm -rf " ++ e.venvPathAnswer ++ "/.venv"),
            Ev.print ("Something went wrong while removing virtual environment at " ++ e.venvPathAnswer ++ "."),
            Ev.log "clean-virtualenv"], some 1)
        else
          ([Ev.print "No virtual environment found in current directory...",
            Ev.sh ("rm -rf " ++ e.venvPathAnswer ++ "/.venv"),
            Ev.print "Virtual environment successfully removed."], none)
      else
        ([Ev.print "No virtual environment found in current directory...",
          Ev.print "No virtual environment found at that path. Skipping..."], none)
  else
    ([Ev.print "Skipping removal of virtual environment. The virtual environment can also be removed manually by deleting the .venv folder in your ssb project directory."], none)

/-- clean.py lines 11-58: `clean_project(project_name)`; returns the full
event trace and the process exit code (0 when the function runs to the end). -/
def clean_project (project_name : String) (e : CleanEnv) : List Ev × Nat :=
  match clean_venv e with
  | (t, some n) => (t, n)
  | (t, none) =>
    match get_kernels_dict e with
    | (tk, .error n) => (t ++ tk, n)
    | (tk, .ok kernels) =>
      match lookupA kernels project_name with
      | none =>
        (t ++ tk ++
          [Ev.print ("Could not find kernel \"" ++ project_name ++ "\". Is the project name spelled correctly?")], 1)
      | some kernel_dir =>
        if e.kernelConfirm = false then (t ++ tk, 1)
        else
          let t2 := t ++ tk ++
            [Ev.print ("Deleting kernel " ++ project_name ++ "...If you wish to also delete the project files, you can do so manually."),
             Ev.proc (pySplitWs ("jupyter kernelspec remove -f " ++ project_name))]
          if e.removeRc ≠ 0 ∨ pyStrip e.removeStderr ≠ "[RemoveKernelSpec] Removed " ++ kernel_dir then
            (t2 ++ [Ev.print "Error: Something went wrong while removing the jupyter kernel.",
                    Ev.log "clean-kernel"], 1)
          else
            (t2 ++ [Ev.print ("Deleted Jupyter kernel " ++ project_name ++ ".")], 0)

/-! ## Build command model (build.py lines 26-93) -/

/-- One step of `build_project` after the manifest check (each backed by a
subprocess or library invocation). -/
inductive BEv where
  | printMsg : String → BEv
  | gitValidate : BEv
  | verifyLocal : BEv
  | confirmFix : BEv
  | sourceCheck : BEv
  | sourceRemove : BEv
  | sourceAdd : BEv
  | poetryInstallStep : BEv
  | installIpykernelStep : BEv
  | attachBashrcStep : BEv
deriving DecidableEq

/-- Environment outcomes consulted by `build_project`. -/
structure BuildEnv where
  /-- `kvakk_git_tools.validate_git_config()` (False also on FileExistsError). -/
  globalGitValid : Bool
  /-- `verify_local_config(...)`. -/
  localGitValid : Bool
  /-- `running_onprem(JUPYTER_IMAGE_SPEC)`. -/
  onprem : Bool
  /-- `poetry_source_includes_source_name(project_directory)`. -/
  sourceIncluded : Bool

/-- build.py lines 26-93: `build_project` up to and including its subprocess
launches; `files` is the set of existing files, the result pairs the event
trace with `some n` when the function exited. -/
def build_project (path working_directory : String) (files : List String)
    (env : BuildEnv) (verify_config : Bool) : List BEv × Option Nat :=
  let project_directory :=
    if path = "" then working_directory else working_directory ++ "/" ++ path
  if files.contains (project_directory ++ "/pyproject.toml") = false then
    ([BEv.printMsg (":x:\tProject directory: " ++ project_directory ++
       " is not a valid SSB-project, pyproject.toml is missing.")], some 1)
  else
    let gitEvs :=
      if verify_config then
        [BEv.gitValidate, BEv.verifyLocal] ++
          (if env.globalGitValid = false ∨ env.localGitValid = false then
            [BEv.printMsg ":x:\tYour project\x27s Git configuration does not follow SSB recommendations,\n:x:\twhich may result in sensitive data being pushed to GitHub.",
             BEv.confirmFix]
          else [])
      else []
    let sourceEvs :=
      if env.onprem then
        [BEv.printMsg ":twisted_rightwards_arrows:\tDetected onprem environment, using proxy for package installation",
         BEv.sourceCheck] ++
          (if env.sourceIncluded then [BEv.sourceRemove] else []) ++ [BEv.sourceAdd]
      else
        [BEv.sourceCheck] ++
          (if env.sourceIncluded then
            [BEv.printMsg ":twisted_rightwards_arrows:\tDetected non-onprem environment, removing proxy for package installation",
             BEv.sourceRemove]
          else [])
    (gitEvs ++ sourceEvs ++
      [BEv.poetryInstallStep, BEv.installIpykernelStep, BEv.attachBashrcStep], none)

/-! ## Helper lemmas -/

theorem lookupA_setA_self {α : Type} (l : List (String × α)) (k : String) (v : α) :
    lookupA (setA l k v) k = some v := by
  induction l with
  | nil => simp [setA, lookupA]
  | cons hd tl ih =>
    obtain ⟨k', v'⟩ := hd
    by_cases h : k' = k
    · simp [setA, h, lookupA]
    · simp [setA, h, lookupA, ih]

theorem lookupA_setA_ne {α : Type} (l : List (String × α)) (k k₂ : String) (v : α)
    (hne : k₂ ≠ k) : lookupA (setA l k v) k₂ = lookupA l k₂ := by
  induction l with
  | nil => simp [setA, lookupA, Ne.symm hne]
  | cons hd tl ih =>
    obtain ⟨k', v'⟩ := hd
    by_cases h : k' = k
    · subst h
      simp [setA, lookupA, Ne.symm hne]
    · simp [setA, h, lookupA, ih]

theorem getArgv_setArgv (j : Json) (v : List String) (h : j.getArgv ≠ []) :
    (j.setArgv v).getArgv = v := by
  cases j with
  | obj fs =>
    simp only [Json.setArgv, Json.getArgv, lookupA_setA_self]
    induction v with
    | nil => rfl
    | cons a t ih => simpa [Json.asString] using ih
  | null => exact absurd rfl h
  | bool b => exact absurd rfl h
  | num n => exact absurd rfl h
  | str s => exact absurd rfl h
  | arr xs => exact absurd rfl h

theorem filter_singleton_ne_nil {l : List String} {q : String → Bool} {x : String}
    (h : l.filter q = [x]) : l ≠ [] := by
  intro h0
  rw [h0] at h
  simp at h

theorem endsWithL_append_self (s t : String) : endsWithL (s ++ t) t = true := by
  unfold endsWithL
  have h1 : (s ++ t).toList = s.toList ++ t.toList := rfl
  rw [h1, List.reverse_append, ← List.length_reverse t.toList, List.take_left]
  exact beq_iff_eq.mpr rfl

theorem containsNl_append (a b : List Char) :
    containsNl (a ++ b) = (containsNl a || containsNl b) := by
  induction a with
  | nil => simp [containsNl]
  | cons c cs ih => simp [containsNl, ih, Bool.or_assoc]

theorem pyRegexMatch_pythonsh (s : String) (h : containsNl s.toList = false) :
    pyRegexMatch (s ++ "/python.sh") = true := by
  have hc : containsNl (s ++ "/python.sh").toList = false := by
    have h0 : (s ++ "/python.sh").toList = s.toList ++ "/python.sh".toList := rfl
    rw [h0, containsNl_append, h]
    decide
  unfold pyRegexMatch pyRegexCore
  rw [hc, endsWithL_append_self]
  simp

theorem gpep_eq_find (argv : List String) :
    get_python_executable_path argv = argv.find? pyRegexMatch := by
  induction argv with
  | nil => rfl
  | cons a t ih =>
    by_cases h : pyRegexMatch a = true
    · simp [get_python_executable_path, List.filter_cons_of_pos, h,
        List.find?_cons_of_pos]
    · rw [List.find?_cons_of_neg _ (by simpa using h), ← ih]
      simp [get_python_executable_path, List.filter_cons_of_neg, h]

theorem patch_success_eq (name pkp p : String) (w : World) (j : Json)
    (hk : lookupA w.kernels name = some pkp)
    (hp : w.paths.contains pkp = true)
    (hj : lookupA w.jsonFiles (pkp ++ "/kernel.json") = some j)
    (hm : j.getArgv.filter pyRegexMatch = [p])
    (hns : endsWithL p "/python.sh" = false) :
    ipykernel_attach_bashrc name w =
      ⟨none,
       { w with
         jsonFiles := setA w.jsonFiles (pkp ++ "/kernel.json")
           (j.setArgv [pkp ++ "/python.sh", "-m", "ipykernel_launcher", "-f",
             "{connection_file}"]),
         textFiles := setA w.textFiles (pkp ++ "/python.sh") (start_script_content p),
         modes := setA w.modes (pkp ++ "/python.sh") 0o555 },
       []⟩ := by
  unfold ipykernel_attach_bashrc
  rw [hk]
  simp only [hp, hj, get_python_executable_path, hm]
  simp [hns]

theorem patch_exit_or (name : String) (w : World) :
    (ipykernel_attach_bashrc name w).exit = none ∨
      (ipykernel_attach_bashrc name w).world = w := by
  unfold ipykernel_attach_bashrc
  repeat' first
  | (left; rfl)
  | (right; rfl)
  | split

theorem patch_already_patched (name pkp p : String) (w : World) (j : Json)
    (hk : lookupA w.kernels name = some pkp)
    (hp : w.paths.contains pkp = true)
    (hj : lookupA w.jsonFiles (pkp ++ "/kernel.json") = some j)
    (hgp : get_python_executable_path j.getArgv = some p)
    (hps : endsWithL p "/python.sh" = true) :
    ipykernel_attach_bashrc name w =
      ⟨some 0, w, [":warning:\t.bashrc should already been mounted in your kernel, if you are in doubt do a \x27clean\x27 followed by a \x27build\x27"]⟩ := by
  unfold ipykernel_attach_bashrc
  rw [hk]
  simp only [hp, hj, hgp]
  simp [hps]

/-! ## Concrete worlds used by witnesses and counterexamples -/

/-- A well-formed kernel launch descriptor before patching. -/
def w_ok_json : Json :=
  Json.obj [("argv", Json.arr [Json.str "/usr/bin/python3", Json.str "-m",
    Json.str "ipykernel_launcher", Json.str "-f", Json.str "{connection_file}"]),
    ("display_name", Json.str "proj"), ("language", Json.str "python")]

/-- A world where kernel `proj` exists with a patchable descriptor. -/
def w_ok : World :=
  { kernels := [("proj", "/k/proj")],
    paths := ["/k/proj"],
    jsonFiles := [("/k/proj/kernel.json", w_ok_json)],
    textFiles := [],
    modes := [] }

/-- A descriptor whose argv has no entry matching the interpreter pattern. -/
def w_nomatch_json : Json :=
  Json.obj [("argv", Json.arr [Json.str "bash", Json.str "-i"]),
    ("display_name", Json.str "proj")]

/-- A world where kernel `proj` exists but its argv has no interpreter entry. -/
def w_nomatch : World :=
  { kernels := [("proj", "/k/proj")],
    paths := ["/k/proj"],
    jsonFiles := [("/k/proj/kernel.json", w_nomatch_json)],
    textFiles := [],
    modes := [] }

/-! ## Claims about the kernel launch patcher -/

/-- C1: for a descriptor whose argv contains exactly one entry matching the
interpreter pattern, that entry not ending in `/python.sh`, a successful patch
leaves argv equal to exactly
`[<kernel_dir>/python.sh, "-m", "ipykernel_launcher", "-f", "{connection_file}"]`
and the generated start script's final line execs the matched interpreter path. -/
theorem patch_rewrites_argv_and_start_script
    (name pkp p : String) (w : World) (j : Json)
    (hk : lookupA w.kernels name = some pkp)
    (hp : w.paths.contains pkp = true)
    (hj : lookupA w.jsonFiles (pkp ++ "/kernel.json") = some j)
    (hm : j.getArgv.filter pyRegexMatch = [p])
    (hns : endsWithL p "/python.sh" = false) :
    (ipykernel_attach_bashrc name w).exit = none ∧
    (lookupA (ipykernel_attach_bashrc name w).world.jsonFiles
        (pkp ++ "/kernel.json")).map Json.getArgv =
      some [pkp ++ "/python.sh", "-m", "ipykernel_launcher", "-f",
        "{connection_file}"] ∧
    lookupA (ipykernel_attach_bashrc name w).world.textFiles (pkp ++ "/python.sh") =
      some (start_script_content p) ∧
    (start_script_lines p).getLastD "" = "exec " ++ p ++ " $@" := by
  have hne : j.getArgv ≠ [] := filter_singleton_ne_nil hm
  rw [patch_success_eq name pkp p w j hk hp hj hm hns]
  refine ⟨rfl, ?_, ?_, rfl⟩
  · simp [lookupA_setA_self, getArgv_setArgv j _ hne]
  · simp [lookupA_setA_self]

/-- C1 witness: concrete run on `w_ok`. -/
theorem patch_rewrites_argv_and_start_script_witness :
    (ipykernel_attach_bashrc "proj" w_ok).exit = none ∧
    (lookupA (ipykernel_attach_bashrc "proj" w_ok).world.jsonFiles
        ("/k/proj" ++ "/kernel.json")).map Json.getArgv =
      some ["/k/proj" ++ "/python.sh", "-m", "ipykernel_launcher", "-f",
        "{connection_file}"] ∧
    lookupA (ipykernel_attach_bashrc "proj" w_ok).world.textFiles
        ("/k/proj" ++ "/python.sh") =
      some (start_script_content "/usr/bin/python3") ∧
    (start_script_lines "/usr/bin/python3").getLastD "" =
      "exec " ++ "/usr/bin/python3" ++ " $@" :=
  patch_rewrites_argv_and_start_script "proj" "/k/proj" "/usr/bin/python3" w_ok
    w_ok_json rfl (by decide) rfl (by decide) (by decide)

/-- C2: the patch is idempotent: a successful first call returns normally
(exit code 0); the second call finds the first matching argv entry ending in
`/python.sh`, prints the informational notice and exits 0 without modifying
the world, which is byte-identical to its state after the first call. -/
theorem patch_idempotent
    (name pkp p : String) (w : World) (j : Json)
    (hk : lookupA w.kernels name = some pkp)
    (hp : w.paths.contains pkp = true)
    (hj : lookupA w.jsonFiles (pkp ++ "/kernel.json") = some j)
    (hm : j.getArgv.filter pyRegexMatch = [p])
    (hns : endsWithL p "/python.sh" = false)
    (hnl : containsNl pkp.toList = false) :
    (ipykernel_attach_bashrc name w).code = 0 ∧
    (ipykernel_attach_bashrc name (ipykernel_attach_bashrc name w).world).code = 0 ∧
    (ipykernel_attach_bashrc name (ipykernel_attach_bashrc name w).world).world =
      (ipykernel_attach_bashrc name w).world ∧
    (ipykernel_attach_bashrc name (ipykernel_attach_bashrc name w).world).prints =
      [":warning:\t.bashrc should already been mounted in your kernel, if you are in doubt do a \x27clean\x27 followed by a \x27build\x27"] := by
  have hne : j.getArgv ≠ [] := filter_singleton_ne_nil hm
  set w1 : World :=
    { w with
      jsonFiles := setA w.jsonFiles (pkp ++ "/kernel.json")
        (j.setArgv [pkp ++ "/python.sh", "-m", "ipykernel_launcher", "-f",
          "{connection_file}"]),
      textFiles := setA w.textFiles (pkp ++ "/python.sh") (start_script_content p),
      modes := setA w.modes (pkp ++ "/python.sh") 0o555 }
  have h1 : ipykernel_attach_bashrc name w = ⟨none, w1, []⟩ :=
    patch_success_eq name pkp p w j hk hp hj hm hns
  have hgp : get_python_executable_path
      (Json.getArgv (j.setArgv [pkp ++ "/python.sh", "-m", "ipykernel_launcher",
        "-f", "{connection_file}"])) = some (pkp ++ "/python.sh") := by
    rw [getArgv_setArgv j _ hne]
    simp [get_python_executable_path, List.filter_cons_of_pos,
      pyRegexMatch_pythonsh pkp hnl]
  have hj1 : lookupA w1.jsonFiles (pkp ++ "/kernel.json") =
      some (j.setArgv [pkp ++ "/python.sh", "-m", "ipykernel_launcher", "-f",
        "{connection_file}"]) :=
    lookupA_setA_self w.jsonFiles _ _
  have h2 : ipykernel_attach_bashrc name w1 =
      ⟨some 0, w1, [":warning:\t.bashrc should already been mounted in your kernel, if you are in doubt do a \x27clean\x27 followed by a \x27build\x27"]⟩ :=
    patch_already_patched name pkp (pkp ++ "/python.sh") w1
      (j.setArgv [pkp ++ "/python.sh", "-m", "ipykernel_launcher", "-f",
        "{connection_file}"]) hk hp hj1 hgp
      (endsWithL_append_self pkp "/python.sh")
  rw [h1]
  dsimp only
  rw [h2]
  exact ⟨rfl, rfl, rfl, rfl⟩

/-- C2 witness: concrete double run on `w_ok`. -/
theorem patch_idempotent_witness :
    (ipykernel_attach_bashrc "proj" w_ok).code = 0 ∧
    (ipykernel_attach_bashrc "proj" (ipykernel_attach_bashrc "proj" w_ok).world).code = 0 ∧
    (ipykernel_attach_bashrc "proj" (ipykernel_attach_bashrc "proj" w_ok).world).world =
      (ipykernel_attach_bashrc "proj" w_ok).world ∧
    (ipykernel_attach_bashrc "proj" (ipykernel_attach_bashrc "proj" w_ok).world).prints =
      [":warning:\t.bashrc should already been mounted in your kernel, if you are in doubt do a \x27clean\x27 followed by a \x27build\x27"] :=
  patch_idempotent "proj" "/k/proj" "/usr/bin/python3" w_ok w_ok_json
    rfl (by decide) rfl (by decide) (by decide) (by decide)

/-- C4 counterexample: on a successful patch the start script mode is `0o555`
(`os.chmod(start_script_path, 0o555)`), whose owner-write bit (bit 7, `0o200`)
is clear, so the script is not writable by its owner, refuting owner
read/write/execute. -/
theorem patch_mode_not_owner_writable_cex :
    (ipykernel_attach_bashrc "proj" w_ok).exit = none ∧
    lookupA (ipykernel_attach_bashrc "proj" w_ok).world.modes "/k/proj/python.sh" =
      some 0o555 ∧
    Nat.testBit 0o555 7 = false := by
  refine ⟨rfl, rfl, by decide⟩

/-- C4 (amended): after a successful patch the start script's mode is `0o555`:
read and execute for owner, group and other (bits 8,6,5,3,2,0), write for no
principal (bits 7,4,1 clear). -/
theorem patch_mode_rx_for_all
    (name pkp p : String) (w : World) (j : Json)
    (hk : lookupA w.kernels name = some pkp)
    (hp : w.paths.contains pkp = true)
    (hj : lookupA w.jsonFiles (pkp ++ "/kernel.json") = some j)
    (hm : j.getArgv.filter pyRegexMatch = [p])
    (hns : endsWithL p "/python.sh" = false) :
    lookupA (ipykernel_attach_bashrc name w).world.modes (pkp ++ "/python.sh") =
      some 0o555 ∧
    (∀ i ∈ [8, 6, 5, 3, 2, 0], Nat.testBit 0o555 i = true) ∧
    (∀ i ∈ [7, 4, 1], Nat.testBit 0o555 i = false) := by
  rw [patch_success_eq name pkp p w j hk hp hj hm hns]
  exact ⟨lookupA_setA_self w.modes _ _, by decide, by decide⟩

/-- C4 witness: concrete run on `w_ok`. -/
theorem patch_mode_rx_for_all_witness :
    lookupA (ipykernel_attach_bashrc "proj" w_ok).world.modes
        ("/k/proj" ++ "/python.sh") = some 0o555 ∧
    (∀ i ∈ [8, 6, 5, 3, 2, 0], Nat.testBit 0o555 i = true) ∧
    (∀ i ∈ [7, 4, 1], Nat.testBit 0o555 i = false) :=
  patch_mode_rx_for_all "proj" "/k/proj" "/usr/bin/python3" w_ok w_ok_json
    rfl (by decide) rfl (by decide) (by decide)

/-- C8: interpreter-path extraction returns the first argv entry matching the
pattern, returns none exactly when no entry matches, and in the no-match case
the patcher exits 1 printing an error naming the descriptor file without
modifying the world. -/
theorem gpep_first_match_and_no_match_fatal :
    (∀ argv, get_python_executable_path argv = argv.find? pyRegexMatch) ∧
    (∀ argv, get_python_executable_path argv = none ↔
      ∀ e ∈ argv, pyRegexMatch e = false) ∧
    (∀ name w pkp j, lookupA w.kernels name = some pkp →
      w.paths.contains pkp = true →
      lookupA w.jsonFiles (pkp ++ "/kernel.json") = some j →
      get_python_executable_path j.getArgv = none →
      ipykernel_attach_bashrc name w =
        ⟨some 1, w,
         [":x:\tCould not mount .bashrc, cannot find python executable path in " ++
           (pkp ++ "/kernel.json")]⟩) := by
  refine ⟨gpep_eq_find, ?_, ?_⟩
  · intro argv
    rw [gpep_eq_find]
    simp [List.find?_eq_none]
  · intro name w pkp j hk hp hj hg
    unfold ipykernel_attach_bashrc
    rw [hk]
    simp only [hp, hj, hg]
    simp

/-- C8 witness: concrete extraction and a concrete fatal no-match run. -/
theorem gpep_first_match_and_no_match_fatal_witness :
    get_python_executable_path ["bash", "/usr/bin/python3", "/opt/python"] =
      some "/usr/bin/python3" ∧
    ipykernel_attach_bashrc "proj" w_nomatch =
      ⟨some 1, w_nomatch,
       [":x:\tCould not mount .bashrc, cannot find python executable path in " ++
         ("/k/proj" ++ "/kernel.json")]⟩ := by
  constructor
  · rw [gpep_first_match_and_no_match_fatal.1]
    decide
  · exact gpep_first_match_and_no_match_fatal.2.2 "proj" w_nomatch "/k/proj"
      w_nomatch_json rfl (by decide) rfl (by decide)

/-- C9: when the patch rewrites the descriptor, every top-level field other
than `argv` is preserved unchanged in the persisted document. -/
theorem patch_preserves_other_fields
    (name pkp p : String) (w : World) (fs : List (String × Json))
    (hk : lookupA w.kernels name = some pkp)
    (hp : w.paths.contains pkp = true)
    (hj : lookupA w.jsonFiles (pkp ++ "/kernel.json") = some (Json.obj fs))
    (hm : (Json.obj fs).getArgv.filter pyRegexMatch = [p])
    (hns : endsWithL p "/python.sh" = false) :
    ∃ fs', lookupA (ipykernel_attach_bashrc name w).world.jsonFiles
        (pkp ++ "/kernel.json") = some (Json.obj fs') ∧
      ∀ k, k ≠ "argv" → lookupA fs' k = lookupA fs k := by
  rw [patch_success_eq name pkp p w (Json.obj fs) hk hp hj hm hns]
  refine ⟨setA fs "argv" (Json.arr ([pkp ++ "/python.sh", "-m",
    "ipykernel_launcher", "-f", "{connection_file}"].map Json.str)), ?_, ?_⟩
  · exact lookupA_setA_self w.jsonFiles _ _
  · intro k hne
    exact lookupA_setA_ne fs "argv" k _ hne

/-- C9 witness: concrete run on `w_ok`; `display_name` is among the preserved
fields. -/
theorem patch_preserves_other_fields_witness :
    ∃ fs', lookupA (ipykernel_attach_bashrc "proj" w_ok).world.jsonFiles
        ("/k/proj" ++ "/kernel.json") = some (Json.obj fs') ∧
      ∀ k, k ≠ "argv" →
        lookupA fs' k = lookupA [("argv", Json.arr [Json.str "/usr/bin/python3",
          Json.str "-m", Json.str "ipykernel_launcher", Json.str "-f",
          Json.str "{connection_file}"]),
          ("display_name", Json.str "proj"), ("language", Json.str "python")] k :=
  patch_preserves_other_fields "proj" "/k/proj" "/usr/bin/python3" w_ok
    [("argv", Json.arr [Json.str "/usr/bin/python3", Json.str "-m",
      Json.str "ipykernel_launcher", Json.str "-f", Json.str "{connection_file}"]),
      ("display_name", Json.str "proj"), ("language", Json.str "python")]
    rfl (by decide) rfl (by decide) (by decide)

/-- C10: whenever `ipykernel_attach_bashrc` exits (any failure path or the
already-patched notice), it does so before performing any write: the world
(kernel descriptor, kernel directory, start script location, modes) is exactly
as it was before the call. -/
theorem patch_atomic_on_exit (name : String) (w : World) (n : Nat)
    (h : (ipykernel_attach_bashrc name w).exit = some n) :
    (ipykernel_attach_bashrc name w).world = w := by
  rcases patch_exit_or name w with h0 | h0
  · rw [h0] at h
    simp at h
  · exact h0

/-- C10 witness: a run that exits 1 (name absent from the kernel listing)
leaves the world untouched. -/
theorem patch_atomic_on_exit_witness :
    (ipykernel_attach_bashrc "ghost" w_ok).world = w_ok :=
  patch_atomic_on_exit "ghost" w_ok 1 rfl

/-! ## Clean command lemmas and claims -/

theorem clean_venv_no_proc (e : CleanEnv) (args : List String) :
    Ev.proc args ∉ (clean_venv e).1 := by
  unfold clean_venv
  repeat' split
  all_goals simp

/-- Concrete environment: venv confirmation declined, everything else succeeds. -/
def env_c5 : CleanEnv :=
  { venvConfirm := false, venvDirHere := false, venvPathAnswer := "",
    venvDirAtPath := false, rmStderr := "", listRc := 0,
    listStdout := "Available kernels:\n  proj    /k/proj",
    kernelConfirm := true, removeRc := 0,
    removeStderr := "[RemoveKernelSpec] Removed /k/proj\n" }

/-- Concrete environment: venv removal confirmed and performed, but the
requested project is absent from the kernel listing. -/
def env_c6 : CleanEnv :=
  { venvConfirm := true, venvDirHere := true, venvPathAnswer := "",
    venvDirAtPath := false, rmStderr := "", listRc := 0,
    listStdout := "Available kernels:\n  python3   /usr/share/jupyter/kernels/python3",
    kernelConfirm := true, removeRc := 0, removeStderr := "" }

/-- Concrete environment: kernel present, removal subprocess returns code 0
but with unexpected stderr. -/
def env_c3 : CleanEnv :=
  { venvConfirm := false, venvDirHere := false, venvPathAnswer := "",
    venvDirAtPath := false, rmStderr := "", listRc := 0,
    listStdout := "Available kernels:\n  proj    /k/proj",
    kernelConfirm := true, removeRc := 0,
    removeStderr := "unexpected" }

/-- C3: the kernel deregistration step succeeds (exit 0) iff the removal
subprocess exits 0 and its stripped stderr exactly equals
`[RemoveKernelSpec] Removed <dir>` for the previously listed directory; on any
mismatch a `clean-kernel` error log is written and the process exits 1. -/
theorem clean_kernel_removal_check (name : String) (e : CleanEnv) (t : List Ev)
    (dir : String)
    (hv : clean_venv e = (t, none))
    (hrc : e.listRc = 0)
    (hk : lookupA (parseKernels e.listStdout) name = some dir)
    (hc : e.kernelConfirm = true) :
    ((clean_project name e).2 = 0 ↔
      (e.removeRc = 0 ∧
        pyStrip e.removeStderr = "[RemoveKernelSpec] Removed " ++ dir)) ∧
    ((e.removeRc ≠ 0 ∨
        pyStrip e.removeStderr ≠ "[RemoveKernelSpec] Removed " ++ dir) →
      (clean_project name e).2 = 1 ∧
        Ev.log "clean-kernel" ∈ (clean_project name e).1) := by
  have hgk : get_kernels_dict e =
      ([Ev.proc ["jupyter", "kernelspec", "list"]],
        .ok (parseKernels e.listStdout)) := by
    simp [get_kernels_dict, hrc]
  by_cases hr : e.removeRc ≠ 0 ∨
      pyStrip e.removeStderr ≠ "[RemoveKernelSpec] Removed " ++ dir
  · have hres : (clean_project name e).2 = 1 ∧
        Ev.log "clean-kernel" ∈ (clean_project name e).1 := by
      unfold clean_project
      rw [hv]
      simp only [hgk, hk, hc]
      simp [hr]
    refine ⟨?_, fun _ => hres⟩
    rw [hres.1]
    constructor
    · intro h0
      exact absurd h0 (by simp)
    · intro h0
      rcases hr with hr | hr
      · exact absurd h0.1 hr
      · exact absurd h0.2 hr
  · push_neg at hr
    have hres : (clean_project name e).2 = 0 := by
      unfold clean_project
      rw [hv]
      simp only [hgk, hk, hc]
      simp [hr.1, hr.2]
    refine ⟨?_, fun h0 => ?_⟩
    · rw [hres]
      simp [hr.1, hr.2]
    · rcases h0 with h0 | h0
      · exact absurd hr.1 h0
      · exact absurd hr.2 h0

/-- C3 witness: removal subprocess returns 0 with wrong stderr; the run exits
1 and writes the `clean-kernel` log. -/
theorem clean_kernel_removal_check_witness :
    (((clean_project "proj" env_c3).2 = 0 ↔
      (env_c3.removeRc = 0 ∧
        pyStrip env_c3.removeStderr = "[RemoveKernelSpec] Removed " ++ "/k/proj")) ∧
    ((env_c3.removeRc ≠ 0 ∨
        pyStrip env_c3.removeStderr ≠ "[RemoveKernelSpec] Removed " ++ "/k/proj") →
      (clean_project "proj" env_c3).2 = 1 ∧
        Ev.log "clean-kernel" ∈ (clean_project "proj" env_c3).1)) :=
  clean_kernel_removal_check "proj" env_c3
    [Ev.print "Skipping removal of virtual environment. The virtual environment can also be removed manually by deleting the .venv folder in your ssb project directory."]
    "/k/proj" rfl rfl (by decide) rfl

/-- C5 counterexample: with the virtual-environment confirmation declined and
everything else succeeding, the process completes with exit code 0 and still
runs the kernel removal - declining that confirmation does not abort with a
non-zero exit code. -/
theorem clean_decline_venv_continues_cex :
    env_c5.venvConfirm = false ∧
    (clean_project "proj" env_c5).2 = 0 ∧
    Ev.proc ["jupyter", "kernelspec", "remove", "-f", "proj"] ∈
      (clean_project "proj" env_c5).1 := by
  refine ⟨rfl, by decide, by decide⟩

/-- C5 (amended): both actions are confirmation-gated, but only the kernel
confirmation aborts: declining the venv confirmation merely prints a skip
notice and continues (no venv removal subprocess), while declining the kernel
confirmation exits 1 with no kernel removal subprocess ever run. -/
theorem clean_confirmation_gates (e : CleanEnv) (name : String) :
    (e.venvConfirm = false →
      clean_venv e =
        ([Ev.print "Skipping removal of virtual environment. The virtual environment can also be removed manually by deleting the .venv folder in your ssb project directory."],
          none)) ∧
    (∀ t dir, clean_venv e = (t, none) → e.listRc = 0 →
      lookupA (parseKernels e.listStdout) name = some dir →
      e.kernelConfirm = false →
      (clean_project name e).2 = 1 ∧
      ∀ args, Ev.proc args ∈ (clean_project name e).1 →
        args = ["jupyter", "kernelspec", "list"]) := by
  constructor
  · intro h
    simp [clean_venv, h]
  · intro t dir hv hrc hk hc
    have hgk : get_kernels_dict e =
        ([Ev.proc ["jupyter", "kernelspec", "list"]],
          .ok (parseKernels e.listStdout)) := by
      simp [get_kernels_dict, hrc]
    have hres : clean_project name e =
        (t ++ [Ev.proc ["jupyter", "kernelspec", "list"]], 1) := by
      unfold clean_project
      rw [hv]
      simp only [hgk, hk]
      simp [hc]
    rw [hres]
    refine ⟨rfl, ?_⟩
    intro args hmem
    rcases List.mem_append.mp hmem with hmem | hmem
    · have hnp := clean_venv_no_proc e args
      rw [hv] at hnp
      exact absurd hmem hnp
    · simpa using hmem

/-- C5 witness: both conjuncts instantiated, with both confirmations declined. -/
theorem clean_confirmation_gates_witness :
    clean_venv { env_c5 with kernelConfirm := false } =
      ([Ev.print "Skipping removal of virtual environment. The virtual environment can also be removed manually by deleting the .venv folder in your ssb project directory."],
        none) ∧
    ((clean_project "proj" { env_c5 with kernelConfirm := false }).2 = 1 ∧
      ∀ args, Ev.proc args ∈
          (clean_project "proj" { env_c5 with kernelConfirm := false }).1 →
        args = ["jupyter", "kernelspec", "list"]) :=
  ⟨(clean_confirmation_gates { env_c5 with kernelConfirm := false } "proj").1 rfl,
   (clean_confirmation_gates { env_c5 with kernelConfirm := false } "proj").2
     [Ev.print "Skipping removal of virtual environment. The virtual environment can also be removed manually by deleting the .venv folder in your ssb project directory."]
     "/k/proj" rfl rfl (by decide) rfl⟩

/-- C6 counterexample: the venv removal subprocess `rm -rf .venv` runs before
the kernel listing is even consulted, so the not-found exit does not precede
every deletion subprocess. -/
theorem clean_missing_kernel_after_rm_cex :
    clean_project "my-project" env_c6 =
      ([Ev.sh "rm -rf .venv",
        Ev.print "Virtual environment successfully removed.",
        Ev.proc ["jupyter", "kernelspec", "list"],
        Ev.print "Could not find kernel \"my-project\". Is the project name spelled correctly?"],
       1) := by
  decide

/-- C6 (amended): when the project name is absent from the kernel listing the
process exits 1 and prints the not-found message before any kernel
deregistration subprocess runs (none is ever started); the earlier virtual
environment removal may already have run. -/
theorem clean_missing_kernel_no_removal (name : String) (e : CleanEnv)
    (t : List Ev)
    (hv : clean_venv e = (t, none))
    (hrc : e.listRc = 0)
    (hk : lookupA (parseKernels e.listStdout) name = none) :
    (clean_project name e).2 = 1 ∧
    Ev.print ("Could not find kernel \"" ++ name ++
      "\". Is the project name spelled correctly?") ∈ (clean_project name e).1 ∧
    ∀ args, Ev.proc args ∈ (clean_project name e).1 →
      args = ["jupyter", "kernelspec", "list"] := by
  have hgk : get_kernels_dict e =
      ([Ev.proc ["jupyter", "kernelspec", "list"]],
        .ok (parseKernels e.listStdout)) := by
    simp [get_kernels_dict, hrc]
  have hres : clean_project name e =
      (t ++ [Ev.proc ["jupyter", "kernelspec", "list"]] ++
        [Ev.print ("Could not find kernel \"" ++ name ++
          "\". Is the project name spelled correctly?")], 1) := by
    unfold clean_project
    rw [hv]
    simp only [hgk, hk]
  rw [hres]
  refine ⟨rfl, by simp, ?_⟩
  intro args hmem
  simp only [List.append_assoc, List.mem_append] at hmem
  rcases hmem with hmem | hmem
  · have hnp := clean_venv_no_proc e args
    rw [hv] at hnp
    exact absurd hmem hnp
  · simpa using hmem

/-- C6 witness: concrete run of the amended statement on `env_c6`. -/
theorem clean_missing_kernel_no_removal_witness :
    (clean_project "my-project" env_c6).2 = 1 ∧
    Ev.print ("Could not find kernel \"" ++ "my-project" ++
      "\". Is the project name spelled correctly?") ∈
      (clean_project "my-project" env_c6).1 ∧
    ∀ args, Ev.proc args ∈ (clean_project "my-project" env_c6).1 →
      args = ["jupyter", "kernelspec", "list"] :=
  clean_missing_kernel_no_removal "my-project" env_c6
    [Ev.sh "rm -rf .venv", Ev.print "Virtual environment successfully removed."]
    rfl rfl (by decide)

/-- C7: building a project directory without `pyproject.toml` exits 1
immediately; the trace holds only the error print, so no subprocess (git
validation, dependency manager, kernel registry) is started. -/
theorem build_missing_manifest (path wd : String) (files : List String)
    (env : BuildEnv) (vc : Bool)
    (h : files.contains ((if path = "" then wd else wd ++ "/" ++ path) ++
      "/pyproject.toml") = false) :
    build_project path wd files env vc =
      ([BEv.printMsg (":x:\tProject directory: " ++
        (if path = "" then wd else wd ++ "/" ++ path) ++
        " is not a valid SSB-project, pyproject.toml is missing.")], some 1) ∧
    ∀ ev ∈ (build_project path wd files env vc).1, ∃ m, ev = BEv.printMsg m := by
  have h1 : build_project path wd files env vc =
      ([BEv.printMsg (":x:\tProject directory: " ++
        (if path = "" then wd else wd ++ "/" ++ path) ++
        " is not a valid SSB-project, pyproject.toml is missing.")], some 1) := by
    unfold build_project
    simp only [h]
    simp
  refine ⟨h1, ?_⟩
  rw [h1]
  intro ev hmem
  simp only [List.mem_singleton] at hmem
  exact ⟨_, hmem⟩

/-- C7 witness: a concrete directory with no manifest file. -/
theorem build_missing_manifest_witness :
    build_project "p" "/w" [] ⟨true, true, false, false⟩ true =
      ([BEv.printMsg (":x:\tProject directory: " ++
        (if "p" = "" then "/w" else "/w" ++ "/" ++ "p") ++
        " is not a valid SSB-project, pyproject.toml is missing.")], some 1) ∧
    ∀ ev ∈ (build_project "p" "/w" [] ⟨true, true, false, false⟩ true).1,
      ∃ m, ev = BEv.printMsg m :=
  build_missing_manifest "p" "/w" [] ⟨true, true, false, false⟩ true (by decide)

end SsbProject
